import Mathlib

/-!
Shallow embedding of the `ddd` DNS DDoS defense core:
the per-source traffic accountant (`internal/monitor/traffic.go`),
the pattern detector (`internal/detector`), and the mitigation store
(`internal/blocker`).

Go `time.Time` is modelled as an integer timestamp measured in seconds;
`t1.After t2` is `t2 < t1` and `t1.Before t2` is `t1 < t2`.  The Go code
calls `time.Now()` inside each operation; the embedding passes the clock
value `now` explicitly, matching the spec's clock abstraction.  Go maps
are modelled as functions `String → Option _`; Go float comparisons
`float64 a / float64 b > c` on small nonnegative integers are modelled as
the exact rational comparison `a > c * b`.
-/

namespace DDD

/-- Timestamps (Go `time.Time`), in seconds. -/
abbrev Time := Int

/-- `monitor.QueryInfo`: one recorded DNS query. -/
structure QueryInfo where
  domain : String
  queryType : String
  timestamp : Time
deriving DecidableEq

/-- `monitor.IPStats`: per-source activity record. -/
structure IPStats where
  requestCount : Nat
  lastRequestTime : Time
  queries : List QueryInfo
  firstSeen : Time
deriving DecidableEq

/-- `monitor.TrafficMonitor`: the per-source stats map. -/
structure TrafficMonitor where
  stats : String → Option IPStats

/-- `monitor.NewTrafficMonitor`: empty stats map. -/
def newTrafficMonitor : TrafficMonitor := ⟨fun _ => none⟩

/-- The fixed 100-event cap on each source's query buffer
(`traffic.go` line 54: `if len(stats.Queries) >= 100`). -/
def activityCap : Nat := 100

/-- `monitor.RecordRequest` (traffic.go lines 38-63): create the record if
absent (with `FirstSeen := now` and empty queries), increment
`RequestCount`, set `LastRequestTime := now`, drop the oldest query if the
buffer already holds `activityCap` entries, then append the new query. -/
def recordRequest (tm : TrafficMonitor) (ip domain qtype : String) (now : Time) :
    TrafficMonitor :=
  let base := (tm.stats ip).getD
    { requestCount := 0, lastRequestTime := 0, queries := [], firstSeen := now }
  let kept := if base.queries.length ≥ activityCap then base.queries.drop 1 else base.queries
  let updated : IPStats :=
    { requestCount := base.requestCount + 1
      lastRequestTime := now
      queries := kept ++ [{ domain := domain, queryType := qtype, timestamp := now }]
      firstSeen := base.firstSeen }
  ⟨fun k => if k = ip then some updated else tm.stats k⟩

/-- `monitor.GetRecentRequestCount` (traffic.go lines 85-104): 0 for unknown
sources; otherwise a counting loop over the retained queries, counting those
with `query.Timestamp.After(now - duration)`, i.e. strictly later than the
cutoff. -/
def getRecentRequestCount (tm : TrafficMonitor) (ip : String) (duration now : Time) : Nat :=
  match tm.stats ip with
  | none => 0
  | some stats =>
    let cutoff := now - duration
    stats.queries.foldl (fun count query =>
      if cutoff < query.timestamp then count + 1 else count) 0

/-- `monitor.GetRecentQueries` (traffic.go lines 107-126): nil for unknown
sources; otherwise the retained queries with `Timestamp.After(now - duration)`,
in buffer order. -/
def getRecentQueries (tm : TrafficMonitor) (ip : String) (duration now : Time) :
    List QueryInfo :=
  match tm.stats ip with
  | none => []
  | some stats =>
    let cutoff := now - duration
    stats.queries.filter (fun query => cutoff < query.timestamp)

/-- `monitor.cleanup` (traffic.go lines 144-155): drop records whose
`LastRequestTime` is before `now - 30` minutes. -/
def monitorCleanup (tm : TrafficMonitor) (now : Time) : TrafficMonitor :=
  ⟨fun k => match tm.stats k with
    | some stats => if stats.lastRequestTime < now - 30 * 60 then none else some stats
    | none => none⟩

/-- `detector.DetectionResult`. -/
structure DetectionResult where
  isAttack : Bool
  attackType : String
  severity : String
  description : String
  shouldBlock : Bool
deriving DecidableEq

/-- `detector.calculateSeverity` (part_001 lines 202-211): "high" when the
count exceeds 5x the limit, "medium" when it exceeds 2x, else "low"
(the Go float ratio comparison, exact on integer inputs). -/
def calculateSeverity (requestCount limit : Int) : String :=
  if requestCount > 5 * limit then "high"
  else if requestCount > 2 * limit then "medium"
  else "low"

/-- `detector.checkRepeatedQueries` (part_001 lines 95-113): needs at least 20
queries; fires when some domain accounts for more than half of the queries and
appears more than 10 times. -/
def checkRepeatedQueries (queries : List QueryInfo) : Bool :=
  if queries.length < 20 then false
  else
    let domains := queries.map QueryInfo.domain
    domains.any (fun d =>
      decide (2 * domains.count d > queries.length) && decide (domains.count d > 10))

/-- `detector.looksRandom` (part_001 lines 185-199): at least 8 bytes long and
more than half of its characters are decimal digits (Go ranges over runes but
measures length in bytes). -/
def looksRandom (s : String) : Bool :=
  if s.utf8ByteSize < 8 then false
  else
    let digitCount := s.data.countP (fun c => decide ('0' ≤ c ∧ c ≤ '9'))
    decide (2 * digitCount > s.utf8ByteSize)

/-- The base-domain/subdomain split of `detector.checkRandomSubdomains`
(part_001 lines 124-134): split on dots; with at least two labels, the base
domain is the last two labels and the subdomain part is the rest. -/
def splitDomain (d : String) : Option (String × String) :=
  let labels := d.splitOn "."
  if labels.length ≥ 2 then
    some (String.intercalate "." (labels.drop (labels.length - 2)),
          String.intercalate "." (labels.take (labels.length - 2)))
  else none

/-- `detector.checkRandomSubdomains` (part_001 lines 116-163): needs at least
30 queries; group nonempty subdomain parts by base domain; fires when some
base domain has more than 20 distinct subdomain parts, or more than 10
distinct subdomain parts that look random. -/
def checkRandomSubdomains (queries : List QueryInfo) : Bool :=
  if queries.length < 30 then false
  else
    let pairs := queries.filterMap (fun q =>
      match splitDomain q.domain with
      | some (base, sub) => if sub ≠ "" then some (base, sub) else none
      | none => none)
    let bases := (pairs.map Prod.fst).dedup
    bases.any (fun base =>
      let subs := ((pairs.filter (fun p => p.1 = base)).map Prod.snd).dedup
      decide (subs.length > 20) || decide (subs.countP looksRandom > 10))

/-- `detector.checkQueryBurst` (part_001 lines 166-182): needs at least 10
queries; fires when more than 50 of them fall in the trailing 10 seconds. -/
def checkQueryBurst (queries : List QueryInfo) (now : Time) : Bool :=
  if queries.length < 10 then false
  else
    let cutoff := now - 10
    decide (queries.countP (fun q => decide (cutoff < q.timestamp)) > 50)

/-- `detector.AnalyzeTraffic` (part_001 lines 35-92): the four signatures in
fixed order, returning at the first that fires. `rateLimit` is the detector's
requests-per-minute threshold. -/
def analyzeTraffic (rateLimit : Int) (ip : String) (tm : TrafficMonitor) (now : Time) :
    DetectionResult :=
  let recentCount := getRecentRequestCount tm ip 60 now
  if (recentCount : Int) > rateLimit then
    { isAttack := true
      attackType := "high_request_rate"
      severity := calculateSeverity recentCount rateLimit
      description := "Excessive request rate detected"
      shouldBlock := decide ((recentCount : Int) > rateLimit * 2) }
  else
    let queries := getRecentQueries tm ip 60 now
    if checkRepeatedQueries queries then
      { isAttack := true, attackType := "repeated_queries", severity := "medium"
        description := "Repeated queries to same domain detected", shouldBlock := true }
    else if checkRandomSubdomains queries then
      { isAttack := true, attackType := "random_subdomain", severity := "high"
        description := "Random subdomain attack detected", shouldBlock := true }
    else if checkQueryBurst queries now then
      { isAttack := true, attackType := "query_burst", severity := "medium"
        description := "Query burst detected", shouldBlock := false }
    else
      { isAttack := false, attackType := "", severity := "", description := ""
        shouldBlock := false }

/-- `blocker.BlockedIP`: one block entry. -/
structure BlockedIP where
  ip : String
  blockedAt : Time
  blockUntil : Time
  reason : String
  blockCount : Nat
deriving DecidableEq

/-- `blocker.IPBlocker`: the mitigation store. `blockDuration` is in
seconds; `rateLimitWindow` is fixed at 30 seconds by `NewIPBlocker`. -/
structure IPBlocker where
  blockedIPs : String → Option BlockedIP
  rateLimitedIPs : String → Option Time
  blockDuration : Int
  rateLimitWindow : Time

/-- `blocker.NewIPBlocker`: empty maps, given block duration, 30s window. -/
def newIPBlocker (blockDuration : Int) : IPBlocker :=
  { blockedIPs := fun _ => none
    rateLimitedIPs := fun _ => none
    blockDuration := blockDuration
    rateLimitWindow := 30 }

/-- Which of the store's reader/writer lock modes an operation acquires. -/
inductive LockMode where
  | shared
  | exclusive
deriving DecidableEq

/-- `blocker.IsBlocked` acquires only `b.mu.RLock()` (setup.sh blob line
106), the shared mode of the store's reader/writer lock. -/
def isBlockedLockMode : LockMode := LockMode.shared

/-- `blocker.IsRateLimited` acquires only `b.mu.RLock()` (setup.sh blob line
123), the shared mode of the store's reader/writer lock. -/
def isRateLimitedLockMode : LockMode := LockMode.shared

/-- `blocker.IsBlocked` (setup.sh blob lines 105-119): true when an entry
exists and `now` is before its `BlockUntil`; on a negative check of an
existing entry the entry is deleted.  The returned store is the post-state,
making the lazy purge visible. -/
def isBlocked (b : IPBlocker) (ip : String) (now : Time) : Bool × IPBlocker :=
  match b.blockedIPs ip with
  | some blocked =>
    if now < blocked.blockUntil then (true, b)
    else
      (false, { b with blockedIPs := fun k => if k = ip then none else b.blockedIPs k })
  | none => (false, b)

/-- `blocker.IsRateLimited` (setup.sh blob lines 122-135): analogous lazy
check on the rate-limit map. -/
def isRateLimited (b : IPBlocker) (ip : String) (now : Time) : Bool × IPBlocker :=
  match b.rateLimitedIPs ip with
  | some limitedUntil =>
    if now < limitedUntil then (true, b)
    else
      (false, { b with rateLimitedIPs := fun k => if k = ip then none else b.rateLimitedIPs k })
  | none => (false, b)

/-- `blocker.BlockIP` (setup.sh blob lines 138-162): if an entry exists
(expired or not), set its `BlockUntil` to `now + blockDuration`, increment
`BlockCount` and overwrite `Reason`; otherwise create a fresh entry with
`BlockCount = 1`. -/
def blockIP (b : IPBlocker) (ip reason : String) (now : Time) : IPBlocker :=
  let blockUntil := now + b.blockDuration
  match b.blockedIPs ip with
  | some blocked =>
    let updated : BlockedIP :=
      { blocked with blockUntil := blockUntil, blockCount := blocked.blockCount + 1, reason := reason }
    { b with blockedIPs := fun k => if k = ip then some updated else b.blockedIPs k }
  | none =>
    let fresh : BlockedIP :=
      { ip := ip, blockedAt := now, blockUntil := blockUntil, reason := reason, blockCount := 1 }
    { b with blockedIPs := fun k => if k = ip then some fresh else b.blockedIPs k }

/-- `blocker.RateLimitIP` (setup.sh blob lines 165-174): overwrite the
rate-limit entry with `now + rateLimitWindow`. -/
def rateLimitIP (b : IPBlocker) (ip : String) (now : Time) : IPBlocker :=
  { b with rateLimitedIPs := fun k =>
      if k = ip then some (now + b.rateLimitWindow) else b.rateLimitedIPs k }

/-- `blocker.UnblockIP` (setup.sh blob lines 177-185): unconditionally delete
both the block entry and the rate-limit entry for the source. -/
def unblockIP (b : IPBlocker) (ip : String) : IPBlocker :=
  { b with blockedIPs := fun k => if k = ip then none else b.blockedIPs k
           rateLimitedIPs := fun k => if k = ip then none else b.rateLimitedIPs k }

/-- `blocker.cleanup` (setup.sh blob lines 245-264): delete block entries
with `now.After(BlockUntil)` and rate-limit entries with
`now.After(limitUntil)`. -/
def blockerCleanup (b : IPBlocker) (now : Time) : IPBlocker :=
  { b with
    blockedIPs := fun k => match b.blockedIPs k with
      | some blocked => if blocked.blockUntil < now then none else some blocked
      | none => none
    rateLimitedIPs := fun k => match b.rateLimitedIPs k with
      | some limitUntil => if limitUntil < now then none else some limitUntil
      | none => none }

/-- One call to `RecordRequest`, with the clock value at the call. -/
structure RecordCall where
  ip : String
  domain : String
  qtype : String
  time : Time

/-- Replay a sequence of `RecordRequest` calls on a fresh monitor. -/
def runRecord (calls : List RecordCall) : TrafficMonitor :=
  calls.foldl (fun tm c => recordRequest tm c.ip c.domain c.qtype c.time) newTrafficMonitor

/-- The retained query buffer of a source (empty for unknown sources). -/
def queriesOf (tm : TrafficMonitor) (s : String) : List QueryInfo :=
  match tm.stats s with
  | none => []
  | some stats => stats.queries

/-- The query event a `RecordRequest` call appends. -/
def callEvent (c : RecordCall) : QueryInfo :=
  { domain := c.domain, queryType := c.qtype, timestamp := c.time }

/-- All events a call sequence records for a given source, in order. -/
def eventsFor (calls : List RecordCall) (s : String) : List QueryInfo :=
  (calls.filter (fun c => c.ip == s)).map callEvent

/-- The number of retained events with `observed_at` in the closed interval
`[now - w, now]`.  Modelled from the claim's words (for comparison with
`getRecentRequestCount`), not from the source. -/
def closedWindowCountSpec (tm : TrafficMonitor) (ip : String) (w now : Time) : Nat :=
  (queriesOf tm ip).countP (fun q => decide (now - w ≤ q.timestamp ∧ q.timestamp ≤ now))

/-- The state of the repo's `TestHighRequestRate` (detector_test.go lines
17-21): 150 `RecordRequest` calls for one source, same domain, within one
minute (all at clock value 30 here). -/
def tm150 : TrafficMonitor :=
  runRecord (List.replicate 150
    { ip := "192.168.1.100", domain := "example.com", qtype := "A", time := 30 })

/-- 30 `RecordRequest` calls for one source, all the same domain, within one
minute (the repo's `TestRepeatedQueries` state). -/
def tm30 : TrafficMonitor :=
  runRecord (List.replicate 30
    { ip := "192.168.1.101", domain := "same-domain.com", qtype := "A", time := 30 })

/-- A monitor with a single event recorded at time 0. -/
def tm0 : TrafficMonitor :=
  recordRequest newTrafficMonitor "1.2.3.4" "example.com" "A" 0

/-- A per-source activity record holding 150 in-window events.  Such a state
is not reachable through `RecordRequest` (whose cap is 100); it isolates the
severity and should-block arithmetic of the high-rate signature. -/
def wideStats : IPStats :=
  { requestCount := 150
    lastRequestTime := 30
    queries := List.replicate 150 { domain := "example.com", queryType := "A", timestamp := 30 }
    firstSeen := 30 }

/-- A monitor whose single source holds `wideStats`. -/
def tmWide : TrafficMonitor :=
  ⟨fun k => if k = "10.0.0.1" then some wideStats else none⟩

/-- A store with block duration 300 whose source `2.2.2.2` was blocked at
time 0 (so its entry reads `blockUntil = 300`, `blockCount = 1`). -/
def bAct : IPBlocker := blockIP (newIPBlocker 300) "2.2.2.2" "first" 0

/-- A store with block duration 300 whose source `9.9.9.9` was blocked at
time 0. -/
def st9 : IPBlocker := blockIP (newIPBlocker 300) "9.9.9.9" "attack detected" 0

/-- A counting loop over a list equals `countP` of its predicate. -/
lemma foldl_count_eq_countP {α : Type _} (P : α → Prop) [DecidablePred P]
    (l : List α) (n : Nat) :
    l.foldl (fun count a => if P a then count + 1 else count) n
      = n + l.countP (fun a => decide (P a)) := by
  induction l generalizing n with
  | nil => simp
  | cons a t ih =>
    by_cases h : P a
    all_goals simp [h, ih, List.countP_cons]
    all_goals omega

/-- `RecordRequest` leaves other sources' records untouched. -/
lemma recordRequest_stats_of_ne (tm : TrafficMonitor) (ip d q : String) (now : Time)
    (s : String) (h : s ≠ ip) :
    (recordRequest tm ip d q now).stats s = tm.stats s := by
  simp [recordRequest, h]

/-- The buffer after `RecordRequest` for the recorded source: drop the oldest
entry when at capacity, then append the new event. -/
lemma queriesOf_recordRequest_self (tm : TrafficMonitor) (ip d q : String) (now : Time) :
    queriesOf (recordRequest tm ip d q now) ip =
      (if (queriesOf tm ip).length ≥ activityCap then (queriesOf tm ip).drop 1
       else queriesOf tm ip)
        ++ [{ domain := d, queryType := q, timestamp := now }] := by
  cases h : tm.stats ip <;> simp [recordRequest, queriesOf, h]

/-- Appending one event to a capped suffix keeps it the capped suffix. -/
lemma snoc_drop_cap (E : List QueryInfo) (ev : QueryInfo) :
    (if (E.drop (E.length - activityCap)).length ≥ activityCap
      then (E.drop (E.length - activityCap)).drop 1
      else E.drop (E.length - activityCap)) ++ [ev]
    = (E ++ [ev]).drop ((E ++ [ev]).length - activityCap) := by
  have hlen : (E.drop (E.length - activityCap)).length
      = E.length - (E.length - activityCap) := by
    simp [List.length_drop]
  by_cases h : E.length ≥ activityCap
  · have hcap : 0 < activityCap := by simp [activityCap]
    rw [if_pos (by omega)]
    rw [List.drop_drop]
    have hle : (E ++ [ev]).length - activityCap ≤ E.length := by
      simp [List.length_append]; omega
    rw [List.drop_append_of_le_length hle]
    congr 1
    congr 1
    simp [List.length_append]
    omega
  · rw [if_neg (by omega)]
    have h0 : E.length - activityCap = 0 := by omega
    have h2 : E.length + 1 - activityCap = 0 := by omega
    simp [h0, List.length_append, h2]

/-- C3. Cap invariant: after any sequence of `record` calls, each source's
retained buffer is exactly the suffix of its recorded events of length at
most `activityCap` — the most recent events in recording order, the oldest
evicted first — and in particular never exceeds `activityCap` entries. -/
theorem c3_cap_invariant (calls : List RecordCall) (s : String) :
    queriesOf (runRecord calls) s
      = (eventsFor calls s).drop ((eventsFor calls s).length - activityCap)
    ∧ (queriesOf (runRecord calls) s).length ≤ activityCap := by
  have main : ∀ cs : List RecordCall,
      queriesOf (runRecord cs) s
        = (eventsFor cs s).drop ((eventsFor cs s).length - activityCap) := by
    intro cs
    induction cs using List.reverseRecOn with
    | nil => simp [runRecord, eventsFor, queriesOf, newTrafficMonitor]
    | append_singleton l c ih =>
      have hrun : runRecord (l ++ [c])
          = recordRequest (runRecord l) c.ip c.domain c.qtype c.time := by
        simp [runRecord, List.foldl_append]
      by_cases hip : c.ip = s
      · subst hip
        have hev : eventsFor (l ++ [c]) c.ip = eventsFor l c.ip ++ [callEvent c] := by
          simp [eventsFor, List.filter_append]
        rw [hrun, queriesOf_recordRequest_self, ih, hev]
        exact snoc_drop_cap (eventsFor l c.ip) (callEvent c)
      · have hev : eventsFor (l ++ [c]) s = eventsFor l s := by
          simp [eventsFor, List.filter_append, hip]
        have hq : queriesOf (runRecord (l ++ [c])) s = queriesOf (runRecord l) s := by
          rw [hrun]
          simp [queriesOf, recordRequest_stats_of_ne _ _ _ _ _ _ (Ne.symm hip)]
        rw [hq, hev, ih]
  refine ⟨main calls, ?_⟩
  rw [main calls, List.length_drop]
  omega

set_option maxRecDepth 4000

/-- C1. Scenario A as the code actually behaves: after 150 `RecordRequest`
calls for one source within one minute with threshold 100, the retained
in-window count is 100 (the buffer cap), so the high-rate signature does not
fire and `AnalyzeTraffic` returns `repeated_queries` — not `high_rate` as
the claim and the repo's own `TestHighRequestRate` expect.  Moreover, even
on an (unreachable) state with 150 in-window events the high-rate verdict
would have `shouldBlock = (150 > 200) = false`, again contradicting the
claim. -/
theorem c1_scenario_a_code_bug :
    getRecentRequestCount tm150 "192.168.1.100" 60 60 = 100 ∧
    analyzeTraffic 100 "192.168.1.100" tm150 60
      = { isAttack := true, attackType := "repeated_queries", severity := "medium",
          description := "Repeated queries to same domain detected", shouldBlock := true } ∧
    (analyzeTraffic 100 "10.0.0.1" tmWide 60).attackType = "high_request_rate" ∧
    (analyzeTraffic 100 "10.0.0.1" tmWide 60).shouldBlock = false := by
  decide

/-- C2 (counterexample). An event timestamped exactly at `now - w` lies in
the closed interval `[now - w, now]` but is not counted: the code's
`Timestamp.After(cutoff)` comparison is strict. -/
theorem c2_window_counterexample :
    getRecentRequestCount tm0 "1.2.3.4" 60 60 = 0 ∧
    closedWindowCountSpec tm0 "1.2.3.4" 60 60 = 1 := by
  decide

/-- C2 (amended). `recent_count` equals the number of the source's retained
events with `observed_at` in the half-open interval `(now - w, now]` — an
event timestamped exactly at `now - w` is excluded — provided every retained
timestamp is at most `now`; unknown sources yield 0. -/
theorem c2_window_correctness (tm : TrafficMonitor) (ip : String) (w now : Int)
    (h : ∀ q ∈ queriesOf tm ip, q.timestamp ≤ now) :
    getRecentRequestCount tm ip w now
      = (queriesOf tm ip).countP
          (fun q => decide (now - w < q.timestamp ∧ q.timestamp ≤ now))
    ∧ (tm.stats ip = none → getRecentRequestCount tm ip w now = 0) := by
  constructor
  · cases hst : tm.stats ip with
    | none => simp [getRecentRequestCount, queriesOf, hst]
    | some stats =>
      have h' : ∀ q ∈ stats.queries, q.timestamp ≤ now := by
        simpa [queriesOf, hst] using h
      have hfold := foldl_count_eq_countP (fun q : QueryInfo => now - w < q.timestamp)
        stats.queries 0
      have hcong : stats.queries.countP (fun q => decide (now - w < q.timestamp))
          = stats.queries.countP
              (fun q => decide (now - w < q.timestamp ∧ q.timestamp ≤ now)) := by
        apply List.countP_congr
        intro q hq
        simp [h' q hq]
      simp only [getRecentRequestCount, queriesOf, hst]
      rw [hfold, hcong]
      simp
  · intro hst
    simp [getRecentRequestCount, hst]

/-- C2 witness: the amended window correctness evaluated on a concrete
single-event monitor. -/
theorem c2_window_correctness_witness :
    (∀ q ∈ queriesOf tm0 "1.2.3.4", q.timestamp ≤ (60 : Time)) ∧
    (getRecentRequestCount tm0 "1.2.3.4" 60 60
      = (queriesOf tm0 "1.2.3.4").countP
          (fun q => decide ((60 : Time) - 60 < q.timestamp ∧ q.timestamp ≤ 60))
    ∧ (tm0.stats "1.2.3.4" = none → getRecentRequestCount tm0 "1.2.3.4" 60 60 = 0)) :=
  ⟨by decide, c2_window_correctness tm0 "1.2.3.4" 60 60 (by decide)⟩

/-- C4. Signature priority: whenever the recent one-minute count exceeds the
threshold, `AnalyzeTraffic` classifies the traffic as `high_request_rate`,
regardless of what the remaining signatures would say about the same
events. -/
theorem c4_priority_order (tm : TrafficMonitor) (ip : String) (now : Int) (limit : Int)
    (h : (getRecentRequestCount tm ip 60 now : Int) > limit) :
    (analyzeTraffic limit ip tm now).isAttack = true ∧
    (analyzeTraffic limit ip tm now).attackType = "high_request_rate" := by
  simp [analyzeTraffic, h]

/-- C4 witness: on 30 same-domain events with threshold 10 the repeated-query
condition also holds, yet the verdict is `high_request_rate`. -/
theorem c4_priority_order_witness :
    ((getRecentRequestCount tm30 "192.168.1.101" 60 60 : Int) > 10) ∧
    checkRepeatedQueries (getRecentQueries tm30 "192.168.1.101" 60 60) = true ∧
    ((analyzeTraffic 10 "192.168.1.101" tm30 60).isAttack = true ∧
     (analyzeTraffic 10 "192.168.1.101" tm30 60).attackType = "high_request_rate") :=
  ⟨by decide, by decide, c4_priority_order tm30 "192.168.1.101" 60 10 (by decide)⟩

/-- `BlockIP` always leaves an entry for the blocked source whose
`BlockUntil` is `now + blockDuration`. -/
lemma blockIP_lookup_self (b : IPBlocker) (s r : String) (now : Time) :
    ∃ e : BlockedIP, (blockIP b s r now).blockedIPs s = some e
      ∧ e.blockUntil = now + b.blockDuration := by
  cases hb : b.blockedIPs s <;> simp [blockIP, hb]

/-- C5. Scenario E: with block duration 300, after `block(s, reason, t0)` the
source is blocked at `t0 + 299`; at `t0 + 301` the check returns false and,
as a side effect of that negative check, the entry is removed. -/
theorem c5_block_expiry (b : IPBlocker) (s reason : String) (t0 : Int)
    (hdur : b.blockDuration = 300) :
    (isBlocked (blockIP b s reason t0) s (t0 + 299)).1 = true ∧
    (isBlocked ((isBlocked (blockIP b s reason t0) s (t0 + 299)).2) s (t0 + 301)).1 = false ∧
    ((isBlocked ((isBlocked (blockIP b s reason t0) s (t0 + 299)).2) s
        (t0 + 301)).2).blockedIPs s = none := by
  obtain ⟨e, he, hu⟩ := blockIP_lookup_self b s reason t0
  have h1 : isBlocked (blockIP b s reason t0) s (t0 + 299)
      = (true, blockIP b s reason t0) := by
    simp only [isBlocked, he]
    rw [if_pos (show t0 + 299 < e.blockUntil by rw [hu, hdur]; omega)]
  rw [h1]
  have hcond : ¬(t0 + 301 < e.blockUntil) := by rw [hu, hdur]; omega
  simp [isBlocked, he, hcond]

/-- C5 witness: Scenario E on a fresh store with block duration 300. -/
theorem c5_block_expiry_witness :
    (isBlocked (blockIP (newIPBlocker 300) "1.2.3.4" "test" 0) "1.2.3.4" (0 + 299)).1 = true ∧
    (isBlocked ((isBlocked (blockIP (newIPBlocker 300) "1.2.3.4" "test" 0) "1.2.3.4"
        (0 + 299)).2) "1.2.3.4" (0 + 301)).1 = false ∧
    ((isBlocked ((isBlocked (blockIP (newIPBlocker 300) "1.2.3.4" "test" 0) "1.2.3.4"
        (0 + 299)).2) "1.2.3.4" (0 + 301)).2).blockedIPs "1.2.3.4" = none :=
  c5_block_expiry (newIPBlocker 300) "1.2.3.4" "test" 0 rfl

/-- C6. Escalation monotonicity: re-blocking a source whose entry is still
active increments `blockCount` by exactly one and moves `blockUntil` to
`now + blockDuration`, which (under monotonic time, expressed by the bound
`e.blockUntil ≤ now + blockDuration`) never decreases it. -/
theorem c6_escalation (b : IPBlocker) (s r : String) (now : Int) (e : BlockedIP)
    (hent : b.blockedIPs s = some e)
    (_hactive : now < e.blockUntil)
    (hmono : e.blockUntil ≤ now + b.blockDuration) :
    (blockIP b s r now).blockedIPs s
      = some { e with blockUntil := now + b.blockDuration,
                      blockCount := e.blockCount + 1, reason := r }
    ∧ e.blockCount + 1 > e.blockCount
    ∧ e.blockUntil ≤ now + b.blockDuration := by
  refine ⟨?_, by omega, hmono⟩
  simp [blockIP, hent]

/-- C6 witness: re-blocking `2.2.2.2` at time 100 while its entry is active
until 300 yields count 2 and expiry 400. -/
theorem c6_escalation_witness :
    (blockIP bAct "2.2.2.2" "second" 100).blockedIPs "2.2.2.2"
      = some { ip := "2.2.2.2", blockedAt := 0, blockUntil := 400,
               reason := "second", blockCount := 2 }
    ∧ (1 : Nat) + 1 > 1
    ∧ (300 : Time) ≤ 100 + 300 :=
  c6_escalation bAct "2.2.2.2" "second" 100
    ⟨"2.2.2.2", 0, 300, "first", 1⟩ (by decide) (by decide) (by decide)

/-- C7. The repeated-query signature fires exactly when there are at least 20
events in the window and some domain accounts for more than half of them
with an absolute count above 10; and whenever the high-rate signature did
not fire but this one does, the verdict is `repeated_queries`, severity
medium, with blocking. -/
theorem c7_repeated_query_signature :
    (∀ queries : List QueryInfo,
      (checkRepeatedQueries queries = true ↔
        20 ≤ queries.length ∧
        ∃ d ∈ queries.map QueryInfo.domain,
          2 * (queries.map QueryInfo.domain).count d > queries.length ∧
          (queries.map QueryInfo.domain).count d > 10))
    ∧ ∀ (tm : TrafficMonitor) (ip : String) (now : Int) (limit : Int),
        ¬((getRecentRequestCount tm ip 60 now : Int) > limit) →
        checkRepeatedQueries (getRecentQueries tm ip 60 now) = true →
        analyzeTraffic limit ip tm now
          = { isAttack := true, attackType := "repeated_queries", severity := "medium",
              description := "Repeated queries to same domain detected",
              shouldBlock := true } := by
  constructor
  · intro queries
    by_cases h : queries.length < 20
    · simp only [checkRepeatedQueries, if_pos h]
      constructor
      · intro hfalse
        exact absurd hfalse (by simp)
      · rintro ⟨h20, -⟩
        omega
    · simp only [checkRepeatedQueries, if_neg h, List.any_eq_true, Bool.and_eq_true,
        decide_eq_true_eq]
      constructor
      · rintro ⟨d, hd, h1, h2⟩
        exact ⟨by omega, d, hd, h1, h2⟩
      · rintro ⟨-, d, hd, h1, h2⟩
        exact ⟨d, hd, h1, h2⟩
  · intro tm ip now limit h hrep
    simp [analyzeTraffic, h, hrep]

/-- C7 witness: Scenario B — 30 same-domain events with threshold 100 yield
the repeated-query verdict. -/
theorem c7_repeated_query_signature_witness :
    analyzeTraffic 100 "192.168.1.101" tm30 60
      = { isAttack := true, attackType := "repeated_queries", severity := "medium",
          description := "Repeated queries to same domain detected",
          shouldBlock := true } :=
  c7_repeated_query_signature.2 tm30 "192.168.1.101" 60 100 (by decide) (by decide)

/-- C8. Idempotent unblock: from any prior store state, after `unblock(s)`
the source is not blocked at any time, and a second `unblock(s)` leaves the
store unchanged. -/
theorem c8_unblock_idempotent (b : IPBlocker) (s : String) (now : Int) :
    (isBlocked (unblockIP b s) s now).1 = false ∧
    unblockIP (unblockIP b s) s = unblockIP b s := by
  constructor
  · simp [isBlocked, unblockIP]
  · obtain ⟨bf, rf, dur, win⟩ := b
    simp only [unblockIP]
    congr 1
    all_goals funext k
    all_goals by_cases h : k = s
    all_goals simp [h]

/-- C9. The source at the negative `IsBlocked` check: the operation acquires
only the shared (read) mode of the store's lock, yet deletes the expired
entry from the block map — a mutation under the read lock, contradicting the
claimed locking discipline. -/
theorem c9_read_lock_mutation :
    isBlockedLockMode = LockMode.shared ∧
    isRateLimitedLockMode = LockMode.shared ∧
    st9.blockedIPs "9.9.9.9"
      = some { ip := "9.9.9.9", blockedAt := 0, blockUntil := 300,
               reason := "attack detected", blockCount := 1 } ∧
    (isBlocked st9 "9.9.9.9" 301).1 = false ∧
    ((isBlocked st9 "9.9.9.9" 301).2).blockedIPs "9.9.9.9" = none := by
  decide

/-- C10. A stale (expired but unswept) entry is escalated by `BlockIP`, not
replaced: the stored `blockedAt` survives, `blockCount` continues from its
previous value instead of restarting at 1, and the reason is overwritten. -/
theorem c10_stale_entry_escalation (b : IPBlocker) (s r : String) (now : Int)
    (e : BlockedIP)
    (hent : b.blockedIPs s = some e)
    (_hexpired : e.blockUntil ≤ now) :
    (blockIP b s r now).blockedIPs s
      = some { ip := e.ip, blockedAt := e.blockedAt, blockUntil := now + b.blockDuration,
               reason := r, blockCount := e.blockCount + 1 } := by
  simp [blockIP, hent]

/-- C10 witness: re-blocking `2.2.2.2` at time 400, after its entry expired
at 300 but before any sweep, yields count 2 (not 1) and the new reason. -/
theorem c10_stale_entry_escalation_witness :
    (blockIP bAct "2.2.2.2" "again" 400).blockedIPs "2.2.2.2"
      = some { ip := "2.2.2.2", blockedAt := 0, blockUntil := 700,
               reason := "again", blockCount := 2 } :=
  c10_stale_entry_escalation bAct "2.2.2.2" "again" 400
    ⟨"2.2.2.2", 0, 300, "first", 1⟩ (by decide) (by decide)

end DDD
